import Mathlib

/-!
Verification of the Goblin shader-program loader (`src/gl/program.js`) and
the vector utility (`src/math/vec3.js`).

The graphics context and the fetch capability are external collaborators;
they are modelled as a deterministic oracle (`GLCtx`): a record of pure
functions answering exactly the queries the code performs (fetch of a
source file, compile/link/validate status, info logs, active-resource
counts, per-index names and per-name locations).  The `Program` instance
state (`ProgState`) mirrors the fields `_name`, `_path`, `_shaders`,
`_program` and `_parameters` of the class.  The promise pipeline of
`ready()` is embedded as explicit state passing returning
`ProgState × Except ProgErr _`: JavaScript promises settle exactly once,
so a settled pipeline is a value; the two "concurrent" shader creations
both run (both state effects happen) and, when both reject, the vertex
rejection is surfaced, which fixes deterministically the timing-dependent
`Promise.all` tie-break of the original.
-/

/-- Shader stage: `WebGLRenderingContext.VERTEX_SHADER` or `FRAGMENT_SHADER`. -/
inductive Stage where
  | vertex
  | fragment
deriving DecidableEq, Repr

/-- Parameter kind: `WebGLRenderingContext.ACTIVE_UNIFORMS` or `ACTIVE_ATTRIBUTES`,
the two keys of the `_parameters` map. -/
inductive ParamKind where
  | uniform
  | attribute
deriving DecidableEq, Repr

/-- Errors thrown by the pipeline.  Each constructor corresponds to one
`throw` site of `program.js` (carrying exactly the data interpolated
into the thrown message), except `fetchFailure`, which injects a rejection
of the external `fetch` capability propagated unchanged by the code. -/
inductive ProgErr where
  | fetchFailure (cause : String)
  | shaderCompilationError (log : String)
  | programLinkError (name : String)
  | programValidationError (name : String)
deriving DecidableEq, Repr

/-- The external oracle: fetch capability plus graphics context, answering
the queries `program.js` performs.  Handles are modelled as `Nat`,
locations as `Int`. -/
structure GLCtx where
  fetch : String → Except String String
  shaderHandle : Stage → Nat
  compileStatus : Stage → Bool
  shaderInfoLog : Stage → String
  programHandle : Nat
  linkStatus : Bool
  validateStatus : Bool
  activeCount : ParamKind → Nat
  activeName : ParamKind → Nat → String
  location : ParamKind → String → Int

/-- Insertion-ordered map update with the semantics of JavaScript
`Map.prototype.set`: an existing key keeps its position and gets the new
value, a fresh key is appended. -/
def mapSet {α β : Type} [DecidableEq α] : List (α × β) → α → β → List (α × β)
  | [], k, v => [(k, v)]
  | (k', v') :: t, k, v =>
    if k' = k then (k, v) :: t else (k', v') :: mapSet t k v

/-- Lookup in an insertion-ordered map (`Map.prototype.get`). -/
def mapGet {α β : Type} [DecidableEq α] : List (α × β) → α → Option β
  | [], _ => none
  | (k', v') :: t, k => if k' = k then some v' else mapGet t k

/-- Instance state of a `Program`: the fields set by the constructor and
mutated by the pipeline.  The `_parameters` map always holds exactly the
two keys `ACTIVE_UNIFORMS` and `ACTIVE_ATTRIBUTES`, so it is split into
the two inner maps. -/
structure ProgState where
  name : String
  path : String
  shaders : List (Stage × Nat)
  program : Option Nat
  uniforms : List (String × Int)
  attributes : List (String × Int)
deriving DecidableEq, Repr

/-- `Program.DEFAULT_SHADER_PATH`. -/
def DEFAULT_SHADER_PATH : String := "/shaders/"

/-- `Program.SHADER_EXTENSIONS`. -/
def shaderExtension : Stage → String
  | .vertex => ".vert"
  | .fragment => ".frag"

/-- The test `path.endsWith('/')` of the constructor: the suffix is the
single character `/`, so it holds exactly when the last character is `/`. -/
def endsWithSlash (s : String) : Bool :=
  match s.data.getLast? with
  | some ch => ch = '/'
  | none => false

/-- The constructor.  `name` and `path` are optional in the destructured
argument object; a missing `path` defaults to `DEFAULT_SHADER_PATH`.
`if(!name) throw ...` fires on an absent or empty name.  Then the path
gets a trailing separator if missing and `_path` is set to
`path + name + "/"`.  The context argument is only stored, never used:
construction performs no I/O. -/
def construct (_ctx : GLCtx) (name : Option String) (path : Option String) :
    Except String ProgState :=
  let nm := name.getD ""
  if nm = "" then
    .error "Name required in order to create a program."
  else
    let p := path.getD DEFAULT_SHADER_PATH
    let p := if endsWithSlash p then p else p ++ "/"
    .ok ⟨nm, p ++ nm ++ "/", [], none, [], []⟩

/-- The URL computed by `createShader`: `_path + _name + extension`. -/
def shaderFile (s : ProgState) (t : Stage) : String :=
  s.path ++ s.name ++ shaderExtension t

/-- `Program.createShader(type)`: fetch the source file, create and compile
the shader, check `COMPILE_STATUS`; on success record the handle in
`_shaders` and resolve with it, on compile failure throw with the shader
info log, and a fetch rejection propagates unchanged. -/
def createShader (c : GLCtx) (s : ProgState) (t : Stage) :
    ProgState × Except ProgErr Nat :=
  match c.fetch (shaderFile s t) with
  | .error e => (s, .error (.fetchFailure e))
  | .ok _body =>
    if c.compileStatus t then
      let sh := c.shaderHandle t
      ({ s with shaders := mapSet s.shaders t sh }, .ok sh)
    else
      (s, .error (.shaderCompilationError (c.shaderInfoLog t)))

/-- `Program.compileProgram(shaders)`: assign `_program = createProgram()`
(before any status check), attach the shaders, link and check
`LINK_STATUS` (throwing a link error on failure), then validate and check
`VALIDATE_STATUS` (throwing a validation error on failure). -/
def compileProgram (c : GLCtx) (s : ProgState) (_shaders : List Nat) :
    ProgState × Except ProgErr Unit :=
  let s := { s with program := some c.programHandle }
  if c.linkStatus then
    if c.validateStatus then
      (s, .ok ())
    else
      (s, .error (.programValidationError s.name))
  else
    (s, .error (.programLinkError s.name))

/-- Projection of the `_parameters` inner map for a parameter kind. -/
def ProgState.param (s : ProgState) : ParamKind → List (String × Int)
  | .uniform => s.uniforms
  | .attribute => s.attributes

/-- Update of the `_parameters` inner map for a parameter kind. -/
def ProgState.setParam (s : ProgState) : ParamKind → List (String × Int) → ProgState
  | .uniform, m => { s with uniforms := m }
  | .attribute, m => { s with attributes := m }

/-- `Program.qualify(parameter)`: query the active-resource count, then for
each index `0 ≤ idx < num` query the resource info (its name) and the
location for that name, and `Map.set` the pair into the parameter map. -/
def qualify (c : GLCtx) (s : ProgState) (p : ParamKind) : ProgState :=
  let num := c.activeCount p
  let m := (List.range num).foldl
    (fun m idx =>
      let nm := c.activeName p idx
      mapSet m nm (c.location p nm))
    (s.param p)
  s.setParam p m

/-- `Program.qualifyAll()`: qualify uniforms and attributes; each `qualify`
returns `undefined`, so the joined promise resolves with two `undefined`
values. -/
def qualifyAll (c : GLCtx) (s : ProgState) : ProgState × Except ProgErr (List Unit) :=
  let s1 := qualify c s .uniform
  let s2 := qualify c s1 .attribute
  (s2, .ok [(), ()])

/-- `Program.ready()`: start both shader creations (both effects happen),
join them (a vertex rejection is surfaced first), then `compileProgram`,
then `qualifyAll`; the pipeline resolves with `qualifyAll`'s value. -/
def ready (c : GLCtx) (s : ProgState) : ProgState × Except ProgErr (List Unit) :=
  let (s1, rv) := createShader c s .vertex
  let (s2, rf) := createShader c s1 .fragment
  match rv, rf with
  | .error e, _ => (s2, .error e)
  | .ok _, .error e => (s2, .error e)
  | .ok vh, .ok fh =>
    match compileProgram c s2 [vh, fh] with
    | (s3, .error e) => (s3, .error e)
    | (s3, .ok _) => qualifyAll c s3

/-- A 3-component vector (`src/math/vec3.js`).  The components live in a
`Float32Array`; the claims under study never read or write components
(the methods throw first), so the component type is modelled as `Int`. -/
structure Vec3 where
  x : Int
  y : Int
  z : Int
deriving DecidableEq, Repr

/-- `Vec3.copy(v3)` as written reads `v._v[0]` where no binding named `v`
is in scope (the parameter is `v3` and the module defines no `v`), so the
first statement throws `ReferenceError: v is not defined` on every call,
before touching any component. -/
def Vec3.copy (_self _v3 : Vec3) : Except String Vec3 :=
  .error "ReferenceError: v is not defined"

/-- `Vec3.clone()` as written evaluates `new v3(...)` where no binding
named `v3` is in scope (the class is named `Vec3` and the method has no
parameter), so every call throws `ReferenceError: v3 is not defined`. -/
def Vec3.clone (_self : Vec3) : Except String Vec3 :=
  .error "ReferenceError: v3 is not defined"

/-- Folding `Map.set` over a list of entries, as the `qualify` loop does. -/
def mapSetFold {α β : Type} [DecidableEq α] (m l : List (α × β)) : List (α × β) :=
  l.foldl (fun acc p => mapSet acc p.1 p.2) m

/-- The entries the `qualify` loop writes: for each index below the active
count, the reported name paired with the location the context reports for
that name. -/
def activePairs (c : GLCtx) (p : ParamKind) : List (String × Int) :=
  (List.range (c.activeCount p)).map
    (fun idx => (c.activeName p idx, c.location p (c.activeName p idx)))

/-! ### Concrete oracles used as test fixtures -/

/-- The state produced by constructing with name `basic` and path `/shaders`. -/
def sBasic : ProgState := ⟨"basic", "/shaders/basic/", [], none, [], []⟩

/-- An oracle on which every stage succeeds: the sources of `part_000`
seen through a driver reporting two active uniforms (`model`,
`view_projection`) and one active attribute (`position`). -/
def ctxOK : GLCtx where
  fetch := fun _ => .ok "src"
  shaderHandle := fun t => match t with | .vertex => 1 | .fragment => 2
  compileStatus := fun _ => true
  shaderInfoLog := fun _ => ""
  programHandle := 7
  linkStatus := true
  validateStatus := true
  activeCount := fun p => match p with | .uniform => 2 | .attribute => 1
  activeName := fun p i =>
    match p with
    | .uniform => if i = 0 then "model" else "view_projection"
    | .attribute => "position"
  location := fun _ nm => Int.ofNat (String.length nm)

/-- Like `ctxOK` but the link-status query reports failure. -/
def ctxLinkFail : GLCtx := { ctxOK with linkStatus := false }

/-- Like `ctxOK` but the validate-status query reports failure. -/
def ctxValidateFail : GLCtx := { ctxOK with validateStatus := false }

/-- Like `ctxOK` but every fetch fails with a transport error. -/
def ctxFetchFail : GLCtx := { ctxOK with fetch := fun _ => .error "network down" }

/-- Like `ctxOK` but the vertex shader fails to compile, with a diagnostic
log from the driver. -/
def ctxVertexBad : GLCtx :=
  { ctxOK with
    compileStatus := fun t => match t with | .vertex => false | .fragment => true
    shaderInfoLog := fun _ => "0:1: syntax error" }

/-- Like `ctxOK` but the fragment shader fails to compile. -/
def ctxFragmentBad : GLCtx :=
  { ctxOK with
    compileStatus := fun t => match t with | .vertex => true | .fragment => false
    shaderInfoLog := fun _ => "0:2: undeclared identifier" }

/-- Like `ctxOK` but `createProgram` hands out a different program handle. -/
def ctxOK2 : GLCtx := { ctxOK with programHandle := 9 }

/-! ### Properties of the insertion-ordered map -/

theorem mapGet_mapSet_self {α β : Type} [DecidableEq α] (m : List (α × β)) (k : α) (v : β) :
    mapGet (mapSet m k v) k = some v := by
  induction m with
  | nil => simp [mapSet, mapGet]
  | cons hd t ih =>
    obtain ⟨k', v'⟩ := hd
    by_cases hk : k' = k
    · simp [mapSet, mapGet, hk]
    · simp [mapSet, mapGet, hk, ih]

theorem mapGet_mapSet_ne {α β : Type} [DecidableEq α] (m : List (α × β)) (k k' : α) (v : β)
    (h : k' ≠ k) : mapGet (mapSet m k' v) k = mapGet m k := by
  induction m with
  | nil => simp [mapSet, mapGet, h]
  | cons hd t ih =>
    obtain ⟨k0, v0⟩ := hd
    by_cases h0 : k0 = k'
    · subst h0
      simp [mapSet, mapGet, h]
    · simp only [mapSet, if_neg h0, mapGet]
      by_cases hk : k0 = k
      · simp [hk]
      · simp [hk, ih]

theorem mapSet_eq_of_mapGet {α β : Type} [DecidableEq α] (m : List (α × β)) (k : α) (v : β)
    (h : mapGet m k = some v) : mapSet m k v = m := by
  induction m with
  | nil => simp [mapGet] at h
  | cons hd t ih =>
    obtain ⟨k', v'⟩ := hd
    by_cases hk : k' = k
    · simp [mapGet, hk] at h
      simp [mapSet, hk, h]
    · simp [mapGet, hk] at h
      simp [mapSet, hk, ih h]

theorem mapSet_append_of_fresh {α β : Type} [DecidableEq α] (m : List (α × β)) (k : α) (v : β)
    (h : ∀ p ∈ m, p.1 ≠ k) : mapSet m k v = m ++ [(k, v)] := by
  induction m with
  | nil => rfl
  | cons hd t ih =>
    obtain ⟨k', v'⟩ := hd
    have hne : k' ≠ k := h (k', v') (by simp)
    simp only [mapSet, if_neg hne, List.cons_append, List.cons.injEq, true_and]
    exact ih (fun p hp => h p (by simp [hp]))

theorem mapSetFold_nil {α β : Type} [DecidableEq α] (m : List (α × β)) :
    mapSetFold m [] = m := rfl

theorem mapSetFold_cons {α β : Type} [DecidableEq α] (m : List (α × β)) (hd : α × β)
    (t : List (α × β)) : mapSetFold m (hd :: t) = mapSetFold (mapSet m hd.1 hd.2) t := rfl

theorem mapSetFold_eq_self {α β : Type} [DecidableEq α] (m l : List (α × β))
    (h : ∀ p ∈ l, mapGet m p.1 = some p.2) : mapSetFold m l = m := by
  induction l with
  | nil => rfl
  | cons hd t ih =>
    rw [mapSetFold_cons, mapSet_eq_of_mapGet m hd.1 hd.2 (h hd (by simp))]
    exact ih (fun p hp => h p (by simp [hp]))

theorem mapGet_mapSetFold_not_mem {α β : Type} [DecidableEq α] (m l : List (α × β)) (k : α)
    (h : ∀ p ∈ l, p.1 ≠ k) : mapGet (mapSetFold m l) k = mapGet m k := by
  induction l generalizing m with
  | nil => rfl
  | cons hd t ih =>
    rw [mapSetFold_cons, ih (mapSet m hd.1 hd.2) (fun p hp => h p (by simp [hp]))]
    exact mapGet_mapSet_ne m k hd.1 hd.2 (h hd (by simp))

theorem mapGet_mapSetFold_mem {α β : Type} [DecidableEq α] (f : α → β) (m l : List (α × β))
    (hf : ∀ p ∈ l, p.2 = f p.1) (k : α) (hk : k ∈ l.map Prod.fst) :
    mapGet (mapSetFold m l) k = some (f k) := by
  induction l generalizing m with
  | nil => simp at hk
  | cons hd t ih =>
    rw [mapSetFold_cons]
    by_cases hmem : k ∈ t.map Prod.fst
    · exact ih (mapSet m hd.1 hd.2) (fun p hp => hf p (by simp [hp])) hmem
    · have hk1 : hd.1 = k := by
        simp only [List.map_cons, List.mem_cons] at hk
        rcases hk with hk | hk
        · exact hk.symm
        · exact absurd hk hmem
      have hnot : ∀ p ∈ t, p.1 ≠ k := by
        intro p hp hpk
        exact hmem (hpk ▸ List.mem_map_of_mem Prod.fst hp)
      rw [mapGet_mapSetFold_not_mem _ t k hnot, ← hk1, mapGet_mapSet_self,
        hf hd (by simp), hk1]

theorem mapSetFold_of_functional {α β : Type} [DecidableEq α] (f : α → β) (m l : List (α × β))
    (hf : ∀ p ∈ l, p.2 = f p.1) :
    mapSetFold (mapSetFold m l) l = mapSetFold m l := by
  apply mapSetFold_eq_self
  intro p hp
  rw [mapGet_mapSetFold_mem f m l hf p.1 (List.mem_map_of_mem Prod.fst hp), hf p hp]

theorem mapSetFold_fresh {α β : Type} [DecidableEq α] (m l : List (α × β))
    (hdisj : ∀ p ∈ l, ∀ q ∈ m, q.1 ≠ p.1) (hnodup : (l.map Prod.fst).Nodup) :
    mapSetFold m l = m ++ l := by
  induction l generalizing m with
  | nil => simp [mapSetFold]
  | cons hd t ih =>
    rw [mapSetFold_cons,
      mapSet_append_of_fresh m hd.1 hd.2 (fun q hq => hdisj hd (by simp) q hq)]
    simp only [List.map_cons, List.nodup_cons] at hnodup
    rw [ih (m ++ [(hd.1, hd.2)]) ?_ hnodup.2]
    · simp
    · intro p hp q hq
      rcases List.mem_append.mp hq with hq | hq
      · exact hdisj p (by simp [hp]) q hq
      · simp only [List.mem_singleton] at hq
        subst hq
        intro hc
        exact hnodup.1 (hc ▸ List.mem_map_of_mem Prod.fst hp)

/-! ### Properties of the introspection stage -/

theorem activePairs_snd (c : GLCtx) (p : ParamKind) :
    ∀ pr ∈ activePairs c p, pr.2 = c.location p pr.1 := by
  intro pr hpr
  simp only [activePairs, List.mem_map, List.mem_range] at hpr
  obtain ⟨i, _, rfl⟩ := hpr
  rfl

theorem activePairs_keys (c : GLCtx) (p : ParamKind) :
    (activePairs c p).map Prod.fst = (List.range (c.activeCount p)).map (c.activeName p) := by
  simp [activePairs, List.map_map]

theorem activePairs_keys_nodup (c : GLCtx) (p : ParamKind)
    (hinj : ∀ i ∈ List.range (c.activeCount p), ∀ j ∈ List.range (c.activeCount p),
      c.activeName p i = c.activeName p j → i = j) :
    ((activePairs c p).map Prod.fst).Nodup := by
  rw [activePairs_keys]
  exact List.Nodup.map_on hinj (List.nodup_range _)

theorem qualify_eq (c : GLCtx) (s : ProgState) (p : ParamKind) :
    qualify c s p = s.setParam p (mapSetFold (s.param p) (activePairs c p)) := by
  unfold qualify mapSetFold activePairs
  rw [List.foldl_map]

theorem setParam_param (s : ProgState) (p : ParamKind) (m : List (String × Int)) :
    (s.setParam p m).param p = m := by
  cases p <;> rfl

theorem setParam_setParam (s : ProgState) (p : ParamKind) (m m' : List (String × Int)) :
    (s.setParam p m).setParam p m' = s.setParam p m' := by
  cases p <;> rfl

theorem qualify_program (c : GLCtx) (s : ProgState) (p : ParamKind) :
    (qualify c s p).program = s.program := by
  rw [qualify_eq]; cases p <;> rfl

theorem qualify_shaders (c : GLCtx) (s : ProgState) (p : ParamKind) :
    (qualify c s p).shaders = s.shaders := by
  rw [qualify_eq]; cases p <;> rfl

theorem qualify_uniform_attributes (c : GLCtx) (s : ProgState) :
    (qualify c s .uniform).attributes = s.attributes := by
  rw [qualify_eq]; rfl

theorem qualify_attribute_uniforms (c : GLCtx) (s : ProgState) :
    (qualify c s .attribute).uniforms = s.uniforms := by
  rw [qualify_eq]; rfl

/-- Re-running `qualify` for the same parameter kind against the same
context leaves the parameter map unchanged: every `Map.set` it performs
re-writes a present key with the value already stored for it. -/
theorem qualify_twice (c : GLCtx) (s : ProgState) (p : ParamKind) :
    qualify c (qualify c s p) p = qualify c s p := by
  rw [qualify_eq c s p, qualify_eq c (s.setParam p (mapSetFold (s.param p) (activePairs c p))) p,
    setParam_param, setParam_setParam,
    mapSetFold_of_functional (c.location p) (s.param p) (activePairs c p) (activePairs_snd c p)]

/-! ### Computation lemmas for the pipeline -/

theorem shaderFile_update (s : ProgState) (x : List (Stage × Nat)) (t : Stage) :
    shaderFile { s with shaders := x } t = shaderFile s t := rfl

theorem ready_success (c : GLCtx) (s : ProgState) (bv bf : String)
    (hfv : c.fetch (shaderFile s .vertex) = .ok bv)
    (hff : c.fetch (shaderFile s .fragment) = .ok bf)
    (hcv : c.compileStatus .vertex = true)
    (hcf : c.compileStatus .fragment = true)
    (hl : c.linkStatus = true)
    (hvl : c.validateStatus = true) :
    ready c s =
      ({ s with
          shaders := mapSet (mapSet s.shaders .vertex (c.shaderHandle .vertex)) .fragment
            (c.shaderHandle .fragment),
          program := some c.programHandle,
          uniforms := mapSetFold s.uniforms (activePairs c .uniform),
          attributes := mapSetFold s.attributes (activePairs c .attribute) },
        .ok [(), ()]) := by
  simp only [ready, createShader, shaderFile_update, hfv, hff, hcv, hcf, if_true,
    compileProgram, hl, hvl, qualifyAll, qualify_eq, ProgState.setParam, ProgState.param]

theorem ready_link_fail (c : GLCtx) (s : ProgState) (bv bf : String)
    (hfv : c.fetch (shaderFile s .vertex) = .ok bv)
    (hff : c.fetch (shaderFile s .fragment) = .ok bf)
    (hcv : c.compileStatus .vertex = true)
    (hcf : c.compileStatus .fragment = true)
    (hl : c.linkStatus = false) :
    ready c s =
      ({ s with
          shaders := mapSet (mapSet s.shaders .vertex (c.shaderHandle .vertex)) .fragment
            (c.shaderHandle .fragment),
          program := some c.programHandle },
        .error (.programLinkError s.name)) := by
  simp only [ready, createShader, shaderFile_update, hfv, hff, hcv, hcf, if_true,
    compileProgram, hl, Bool.false_eq_true, if_false]

theorem ready_validate_fail (c : GLCtx) (s : ProgState) (bv bf : String)
    (hfv : c.fetch (shaderFile s .vertex) = .ok bv)
    (hff : c.fetch (shaderFile s .fragment) = .ok bf)
    (hcv : c.compileStatus .vertex = true)
    (hcf : c.compileStatus .fragment = true)
    (hl : c.linkStatus = true)
    (hvl : c.validateStatus = false) :
    ready c s =
      ({ s with
          shaders := mapSet (mapSet s.shaders .vertex (c.shaderHandle .vertex)) .fragment
            (c.shaderHandle .fragment),
          program := some c.programHandle },
        .error (.programValidationError s.name)) := by
  simp only [ready, createShader, shaderFile_update, hfv, hff, hcv, hcf, if_true,
    compileProgram, hl, hvl, Bool.false_eq_true, if_false]

theorem ready_vertex_fetch_fail (c : GLCtx) (s : ProgState) (e : String)
    (hfv : c.fetch (shaderFile s .vertex) = .error e) :
    (ready c s).2 = .error (.fetchFailure e) ∧ (ready c s).1.program = s.program := by
  rcases hff : c.fetch (shaderFile s .fragment) with e' | bf <;>
    rcases hcf : c.compileStatus .fragment with _ | _ <;>
      simp [ready, createShader, hfv, hff, hcf]

theorem ready_vertex_compile_fail (c : GLCtx) (s : ProgState) (bv : String)
    (hfv : c.fetch (shaderFile s .vertex) = .ok bv)
    (hcv : c.compileStatus .vertex = false) :
    (ready c s).2 = .error (.shaderCompilationError (c.shaderInfoLog .vertex)) ∧
      (ready c s).1.program = s.program := by
  rcases hff : c.fetch (shaderFile s .fragment) with e' | bf <;>
    rcases hcf : c.compileStatus .fragment with _ | _ <;>
      simp [ready, createShader, hfv, hcv, hff, hcf]

theorem ready_fragment_fetch_fail (c : GLCtx) (s : ProgState) (bv : String) (e : String)
    (hfv : c.fetch (shaderFile s .vertex) = .ok bv)
    (hcv : c.compileStatus .vertex = true)
    (hff : c.fetch (shaderFile s .fragment) = .error e) :
    (ready c s).2 = .error (.fetchFailure e) ∧ (ready c s).1.program = s.program := by
  simp [ready, createShader, shaderFile_update, hfv, hcv, hff]

theorem ready_fragment_compile_fail (c : GLCtx) (s : ProgState) (bv bf : String)
    (hfv : c.fetch (shaderFile s .vertex) = .ok bv)
    (hcv : c.compileStatus .vertex = true)
    (hff : c.fetch (shaderFile s .fragment) = .ok bf)
    (hcf : c.compileStatus .fragment = false) :
    (ready c s).2 = .error (.shaderCompilationError (c.shaderInfoLog .fragment)) ∧
      (ready c s).1.program = s.program := by
  simp [ready, createShader, shaderFile_update, hfv, hcv, hff, hcf]

/-! ### The constructor -/

theorem construct_some (c : GLCtx) (nm pth : String) (hnm : nm ≠ "") :
    construct c (some nm) (some pth) =
      .ok ⟨nm, (if endsWithSlash pth then pth else pth ++ "/") ++ nm ++ "/",
        [], none, [], []⟩ := by
  simp [construct, hnm]

theorem construct_default (c : GLCtx) (nm : String) (hnm : nm ≠ "") :
    construct c (some nm) none =
      .ok ⟨nm, DEFAULT_SHADER_PATH ++ nm ++ "/", [], none, [], []⟩ := by
  simp [construct, hnm, DEFAULT_SHADER_PATH, endsWithSlash]

theorem setParam_self (s : ProgState) (p : ParamKind) :
    s.setParam p (s.param p) = s := by
  cases p <;> rfl

/-- Re-running the whole introspection stage leaves the instance state
unchanged. -/
theorem qualifyAll_state_idem (c : GLCtx) (s : ProgState) :
    (qualifyAll c (qualifyAll c s).1).1 = (qualifyAll c s).1 := by
  show qualify c (qualify c (qualify c (qualify c s .uniform) .attribute) .uniform) .attribute
      = qualify c (qualify c s .uniform) .attribute
  have hparam : (qualify c (qualify c s .uniform) .attribute).param .uniform
      = mapSetFold (s.param .uniform) (activePairs c .uniform) := by
    show (qualify c (qualify c s .uniform) .attribute).uniforms = _
    rw [qualify_attribute_uniforms, qualify_eq c s .uniform]
    rfl
  have hinner : qualify c (qualify c (qualify c s .uniform) .attribute) .uniform
      = qualify c (qualify c s .uniform) .attribute := by
    rw [qualify_eq c (qualify c (qualify c s .uniform) .attribute) .uniform, hparam,
      mapSetFold_of_functional (c.location .uniform) _ _ (activePairs_snd c .uniform),
      ← hparam, setParam_self]
  rw [hinner, qualify_twice]

/-! ### The claims -/

/-- Claim C7: a construction call whose name is absent or empty fails
synchronously with the configuration error, and construction never
performs I/O: its result does not depend on the context (in particular
not on its fetch capability). -/
theorem C7_construction_validation :
    (∀ (c : GLCtx) (p : Option String),
      construct c none p = .error "Name required in order to create a program.") ∧
    (∀ (c : GLCtx) (p : Option String),
      construct c (some "") p = .error "Name required in order to create a program.") ∧
    (∀ (c c' : GLCtx) (n p : Option String), construct c n p = construct c' n p) := by
  refine ⟨fun c p => rfl, fun c p => rfl, fun c c' n p => rfl⟩

/-- Claim C8: for every base path P and name N, the vertex source is
located at P/N/N.vert and the fragment source at P/N/N.frag, with the
trailing separator appended to P only when missing; constructing with
"/shaders" and with "/shaders/" (name "basic") both resolve the vertex
source to "/shaders/basic/basic.vert"; an omitted path uses the
process-wide default. -/
theorem C8_path_normalization (c : GLCtx) (nm pth : String) (hnm : nm ≠ "") :
    (∀ s, construct c (some nm) (some pth) = .ok s →
      shaderFile s .vertex =
        (if endsWithSlash pth then pth else pth ++ "/") ++ nm ++ "/" ++ nm ++ ".vert" ∧
      shaderFile s .fragment =
        (if endsWithSlash pth then pth else pth ++ "/") ++ nm ++ "/" ++ nm ++ ".frag") ∧
    (∀ s, construct c (some nm) none = .ok s →
      shaderFile s .vertex = DEFAULT_SHADER_PATH ++ nm ++ "/" ++ nm ++ ".vert") ∧
    (∀ s s', construct c (some "basic") (some "/shaders") = .ok s →
      construct c (some "basic") (some "/shaders/") = .ok s' →
      shaderFile s .vertex = "/shaders/basic/basic.vert" ∧
      shaderFile s' .vertex = "/shaders/basic/basic.vert") := by
  refine ⟨?_, ?_, ?_⟩
  · intro s h
    rw [construct_some c nm pth hnm] at h
    injection h with h
    subst h
    exact ⟨rfl, rfl⟩
  · intro s h
    rw [construct_default c nm hnm] at h
    injection h with h
    subst h
    exact rfl
  · intro s s' h h'
    have e1 : construct c (some "basic") (some "/shaders") = .ok sBasic := rfl
    have e2 : construct c (some "basic") (some "/shaders/") = .ok sBasic := rfl
    rw [e1] at h
    rw [e2] at h'
    injection h with h
    injection h' with h'
    subst h
    subst h'
    exact ⟨rfl, rfl⟩

/-- Claim C8, witness: instantiating at name "basic" and path "/shaders"
both spellings of the base path give "/shaders/basic/basic.vert". -/
theorem C8_path_normalization_witness :
    shaderFile sBasic .vertex = "/shaders/basic/basic.vert" ∧
    shaderFile sBasic .vertex = "/shaders/basic/basic.vert" :=
  (C8_path_normalization ctxOK "basic" "/shaders" (by decide)).2.2 sBasic sBasic rfl rfl

/-- Claim C9: the introspection stage is idempotent: re-running `qualify`
for a parameter kind, or the whole `qualifyAll` stage, against the same
context and linked program yields exactly the same name-to-location
maps as running it once. -/
theorem C9_introspection_idempotent (c : GLCtx) (s : ProgState) (p : ParamKind) :
    qualify c (qualify c s p) p = qualify c s p ∧
    (qualifyAll c (qualifyAll c s).1).1 = (qualifyAll c s).1 :=
  ⟨qualify_twice c s p, qualifyAll_state_idem c s⟩

/-- Claim C10: `Vec3.copy` and `Vec3.clone` do not implement their
documented behavior: both throw a `ReferenceError` (the code references
the out-of-scope names `v` and `v3`), so no call ever returns a vector. -/
theorem C10_vec3_copy_clone_defect :
    Vec3.copy ⟨0, 0, 0⟩ ⟨1, 2, 3⟩ = .error "ReferenceError: v is not defined" ∧
    Vec3.clone ⟨1, 2, 3⟩ = .error "ReferenceError: v3 is not defined" ∧
    (∀ a b r : Vec3, Vec3.copy a b ≠ .ok r ∧ Vec3.clone a ≠ .ok r) := by
  refine ⟨rfl, rfl, fun a b r => ⟨?_, ?_⟩⟩ <;> simp [Vec3.copy, Vec3.clone]

/-- Claim C1: on a fully successful build from a valid construction, the
pipeline resolves and each parameter map holds exactly one
name-to-location entry per active resource the context reports (indices
0 to count-1, in order), with no duplicate names within either map;
the driver-reported names are assumed pairwise distinct per class, as
the GL specification guarantees for active resources. -/
theorem C1_parameter_maps_exact (c : GLCtx) (nm pth : String) (s : ProgState) (bv bf : String)
    (hc : construct c (some nm) (some pth) = .ok s)
    (hfv : c.fetch (shaderFile s .vertex) = .ok bv)
    (hff : c.fetch (shaderFile s .fragment) = .ok bf)
    (hcv : c.compileStatus .vertex = true)
    (hcf : c.compileStatus .fragment = true)
    (hl : c.linkStatus = true)
    (hvl : c.validateStatus = true)
    (hnu : ∀ i ∈ List.range (c.activeCount .uniform), ∀ j ∈ List.range (c.activeCount .uniform),
      c.activeName .uniform i = c.activeName .uniform j → i = j)
    (hna : ∀ i ∈ List.range (c.activeCount .attribute), ∀ j ∈ List.range (c.activeCount .attribute),
      c.activeName .attribute i = c.activeName .attribute j → i = j) :
    (ready c s).2 = .ok [(), ()] ∧
    (ready c s).1.uniforms = activePairs c .uniform ∧
    (ready c s).1.attributes = activePairs c .attribute ∧
    ((ready c s).1.uniforms.map Prod.fst).Nodup ∧
    ((ready c s).1.attributes.map Prod.fst).Nodup := by
  have hs : s.uniforms = [] ∧ s.attributes = [] := by
    by_cases h : nm = ""
    · rw [h] at hc
      simp [construct] at hc
    · rw [construct_some c nm pth h] at hc
      injection hc with hc
      rw [← hc]
      exact ⟨rfl, rfl⟩
  obtain ⟨hu0, ha0⟩ := hs
  have hfu : mapSetFold s.uniforms (activePairs c .uniform) = activePairs c .uniform := by
    rw [hu0]
    have := mapSetFold_fresh [] (activePairs c .uniform) (by simp)
      (activePairs_keys_nodup c .uniform hnu)
    simpa using this
  have hfa : mapSetFold s.attributes (activePairs c .attribute) = activePairs c .attribute := by
    rw [ha0]
    have := mapSetFold_fresh [] (activePairs c .attribute) (by simp)
      (activePairs_keys_nodup c .attribute hna)
    simpa using this
  rw [ready_success c s bv bf hfv hff hcv hcf hl hvl]
  refine ⟨rfl, hfu, hfa, ?_, ?_⟩
  · show ((mapSetFold s.uniforms (activePairs c .uniform)).map Prod.fst).Nodup
    rw [hfu]
    exact activePairs_keys_nodup c .uniform hnu
  · show ((mapSetFold s.attributes (activePairs c .attribute)).map Prod.fst).Nodup
    rw [hfa]
    exact activePairs_keys_nodup c .attribute hna

/-- Claim C1, witness: the all-success oracle with two active uniforms and
one active attribute yields exactly those entries. -/
theorem C1_parameter_maps_exact_witness :
    (ready ctxOK sBasic).2 = .ok [(), ()] ∧
    (ready ctxOK sBasic).1.uniforms = activePairs ctxOK .uniform ∧
    (ready ctxOK sBasic).1.attributes = activePairs ctxOK .attribute ∧
    ((ready ctxOK sBasic).1.uniforms.map Prod.fst).Nodup ∧
    ((ready ctxOK sBasic).1.attributes.map Prod.fst).Nodup :=
  C1_parameter_maps_exact ctxOK "basic" "/shaders" sBasic "src" "src"
    rfl rfl rfl rfl rfl rfl rfl (by decide) (by decide)

/-- Claim C2, counterexample: two successful builds whose linked program
handles differ produce literally identical resolution values, so the
value `ready()` resolves with is not the program handle: it is the array
of the two introspection results, while the handle only lives in the
instance's program field. -/
theorem C2_counterexample :
    (ready ctxOK sBasic).2 = (ready ctxOK2 sBasic).2 ∧
    (ready ctxOK sBasic).1.program = some 7 ∧
    (ready ctxOK2 sBasic).1.program = some 9 ∧
    ctxOK.programHandle ≠ ctxOK2.programHandle :=
  ⟨rfl, rfl, rfl, by decide⟩

/-- Claim C2, amended: on a fully successful build the future settles
exactly once, with the array of the two (undefined) introspection
results — the linked program handle is stored in the instance's program
field, not in the resolution value — and on a failing stage it rejects
with the first error encountered (vertex before fragment, fetch before
compile). -/
theorem C2_resolution_value (c : GLCtx) (s : ProgState) :
    (∀ bv bf, c.fetch (shaderFile s .vertex) = .ok bv →
      c.fetch (shaderFile s .fragment) = .ok bf →
      c.compileStatus .vertex = true → c.compileStatus .fragment = true →
      c.linkStatus = true → c.validateStatus = true →
      (ready c s).2 = .ok [(), ()] ∧ (ready c s).1.program = some c.programHandle) ∧
    (∀ e, c.fetch (shaderFile s .vertex) = .error e →
      (ready c s).2 = .error (.fetchFailure e)) ∧
    (∀ bv, c.fetch (shaderFile s .vertex) = .ok bv → c.compileStatus .vertex = false →
      (ready c s).2 = .error (.shaderCompilationError (c.shaderInfoLog .vertex))) := by
  refine ⟨?_, ?_, ?_⟩
  · intro bv bf hfv hff hcv hcf hl hvl
    rw [ready_success c s bv bf hfv hff hcv hcf hl hvl]
    exact ⟨rfl, rfl⟩
  · intro e hfv
    exact (ready_vertex_fetch_fail c s e hfv).1
  · intro bv hfv hcv
    exact (ready_vertex_compile_fail c s bv hfv hcv).1

/-- Claim C2, witness for the amended claim. -/
theorem C2_resolution_value_witness :
    (ready ctxOK sBasic).2 = .ok [(), ()] ∧
    (ready ctxOK sBasic).1.program = some ctxOK.programHandle :=
  (C2_resolution_value ctxOK sBasic).1 "src" "src" rfl rfl rfl rfl rfl rfl

/-- Claim C3: when the compile-status query of a stage reports failure, the
pipeline fails and `ready()` rejects with a compilation error carrying the
context's info log for that shader (non-empty whenever the driver provides
a non-empty log); when both stages fail, the vertex error is surfaced. -/
theorem C3_compile_failure (c : GLCtx) (s : ProgState) :
    (∀ bv, c.fetch (shaderFile s .vertex) = .ok bv → c.compileStatus .vertex = false →
      (ready c s).2 = .error (.shaderCompilationError (c.shaderInfoLog .vertex)) ∧
      (c.shaderInfoLog .vertex ≠ "" →
        ∃ log, (ready c s).2 = .error (.shaderCompilationError log) ∧ log ≠ "")) ∧
    (∀ bv bf, c.fetch (shaderFile s .vertex) = .ok bv → c.compileStatus .vertex = true →
      c.fetch (shaderFile s .fragment) = .ok bf → c.compileStatus .fragment = false →
      (ready c s).2 = .error (.shaderCompilationError (c.shaderInfoLog .fragment)) ∧
      (c.shaderInfoLog .fragment ≠ "" →
        ∃ log, (ready c s).2 = .error (.shaderCompilationError log) ∧ log ≠ "")) := by
  constructor
  · intro bv hfv hcv
    have h := (ready_vertex_compile_fail c s bv hfv hcv).1
    exact ⟨h, fun hne => ⟨_, h, hne⟩⟩
  · intro bv bf hfv hcv hff hcf
    have h := (ready_fragment_compile_fail c s bv bf hfv hcv hff hcf).1
    exact ⟨h, fun hne => ⟨_, h, hne⟩⟩

/-- Claim C3, witness: a vertex shader whose compilation fails with a
driver diagnostic. -/
theorem C3_compile_failure_witness :
    (ready ctxVertexBad sBasic).2 =
      .error (.shaderCompilationError (ctxVertexBad.shaderInfoLog .vertex)) ∧
    (ctxVertexBad.shaderInfoLog .vertex ≠ "" →
      ∃ log, (ready ctxVertexBad sBasic).2 = .error (.shaderCompilationError log) ∧ log ≠ "") :=
  (C3_compile_failure ctxVertexBad sBasic).1 "src" rfl rfl

/-- Claim C4: when both shaders compile but the link-status query reports
failure, `ready()` rejects with the link error, both parameter maps are
left untouched (no introspection), and the result does not depend on the
validate-status oracle (validation is never attempted) nor on any of the
introspection oracles; a validation-status failure after a successful
link rejects with the validation error instead. -/
theorem C4_link_failure (c : GLCtx) (s : ProgState) (bv bf : String)
    (hfv : c.fetch (shaderFile s .vertex) = .ok bv)
    (hff : c.fetch (shaderFile s .fragment) = .ok bf)
    (hcv : c.compileStatus .vertex = true)
    (hcf : c.compileStatus .fragment = true) :
    (c.linkStatus = false →
      (ready c s).2 = .error (.programLinkError s.name) ∧
      (ready c s).1.uniforms = s.uniforms ∧
      (ready c s).1.attributes = s.attributes ∧
      (∀ b, ready { c with validateStatus := b } s = ready c s) ∧
      (∀ f g h', ready { c with activeCount := f, activeName := g, location := h' } s
        = ready c s)) ∧
    (c.linkStatus = true → c.validateStatus = false →
      (ready c s).2 = .error (.programValidationError s.name)) := by
  constructor
  · intro hl
    have hr := ready_link_fail c s bv bf hfv hff hcv hcf hl
    refine ⟨by rw [hr], by rw [hr], by rw [hr], ?_, ?_⟩
    · intro b
      rw [hr, ready_link_fail { c with validateStatus := b } s bv bf hfv hff hcv hcf hl]
    · intro f g h'
      rw [hr, ready_link_fail { c with activeCount := f, activeName := g, location := h' } s
        bv bf hfv hff hcv hcf hl]
  · intro hl hvl
    rw [ready_validate_fail c s bv bf hfv hff hcv hcf hl hvl]

/-- Claim C4, witness: a link failure on the all-success oracle. -/
theorem C4_link_failure_witness :
    (ready ctxLinkFail sBasic).2 = .error (.programLinkError sBasic.name) ∧
    (ready ctxLinkFail sBasic).1.uniforms = sBasic.uniforms ∧
    (ready ctxLinkFail sBasic).1.attributes = sBasic.attributes :=
  have h := (C4_link_failure ctxLinkFail sBasic "src" "src" rfl rfl rfl rfl).1 rfl
  ⟨h.1, h.2.1, h.2.2.1⟩

/-- Claim C5, counterexample: two programs constructed at different base
paths reject with literally the same error value when every fetch fails
with the same cause, so the rejection cannot carry the path: the code
propagates the fetch rejection unwrapped instead of mapping it to an
error that records path and cause. -/
theorem C5_counterexample :
    construct ctxFetchFail (some "basic") (some "/a") =
      .ok ⟨"basic", "/a/basic/", [], none, [], []⟩ ∧
    construct ctxFetchFail (some "basic") (some "/b") =
      .ok ⟨"basic", "/b/basic/", [], none, [], []⟩ ∧
    (ready ctxFetchFail ⟨"basic", "/a/basic/", [], none, [], []⟩).2 =
      (ready ctxFetchFail ⟨"basic", "/b/basic/", [], none, [], []⟩).2 ∧
    shaderFile ⟨"basic", "/a/basic/", [], none, [], []⟩ .vertex ≠
      shaderFile ⟨"basic", "/b/basic/", [], none, [], []⟩ .vertex ∧
    (ready ctxFetchFail ⟨"basic", "/a/basic/", [], none, [], []⟩).2 =
      .error (.fetchFailure "network down") :=
  ⟨rfl, rfl, rfl, by decide, rfl⟩

/-- Claim C5, amended: when the fetch of either shader source fails,
`ready()` rejects with the underlying fetch cause, propagated unchanged
(without the path attached), and no program handle is ever exposed: the
program field stays empty. -/
theorem C5_fetch_failure (c : GLCtx) (s : ProgState) (hp : s.program = none) :
    (∀ e, c.fetch (shaderFile s .vertex) = .error e →
      (ready c s).2 = .error (.fetchFailure e) ∧ (ready c s).1.program = none) ∧
    (∀ bv e, c.fetch (shaderFile s .vertex) = .ok bv → c.compileStatus .vertex = true →
      c.fetch (shaderFile s .fragment) = .error e →
      (ready c s).2 = .error (.fetchFailure e) ∧ (ready c s).1.program = none) := by
  constructor
  · intro e hfv
    have h := ready_vertex_fetch_fail c s e hfv
    exact ⟨h.1, by rw [h.2, hp]⟩
  · intro bv e hfv hcv hff
    have h := ready_fragment_fetch_fail c s bv e hfv hcv hff
    exact ⟨h.1, by rw [h.2, hp]⟩

/-- Claim C5, witness for the amended claim. -/
theorem C5_fetch_failure_witness :
    (ready ctxFetchFail sBasic).2 = .error (.fetchFailure "network down") ∧
    (ready ctxFetchFail sBasic).1.program = none :=
  (C5_fetch_failure ctxFetchFail sBasic rfl).1 "network down" rfl

/-- Claim C6, counterexample: when both shaders compile but linking fails,
the program field is populated anyway — `compileProgram` assigns the
handle returned by `createProgram` before the link-status check — so a
reachable state holds a program handle although the link check failed. -/
theorem C6_counterexample :
    (ready ctxLinkFail sBasic).1.program = some 7 ∧
    ctxLinkFail.linkStatus = false ∧
    (ready ctxLinkFail sBasic).2 = .error (.programLinkError "basic") :=
  ⟨rfl, rfl, rfl⟩

/-- Claim C6, amended: in every reachable state of an instance whose
program field started empty, a program handle exists only if both shader
fetches and both compile checks succeeded — both shader handles exist and
are recorded — but it can exist even when the link or validate check
failed. -/
theorem C6_program_requires_shaders (c : GLCtx) (s : ProgState) (h0 : s.program = none)
    (h : ((ready c s).1.program).isSome = true) :
    (∃ bv, c.fetch (shaderFile s .vertex) = .ok bv) ∧
    (∃ bf, c.fetch (shaderFile s .fragment) = .ok bf) ∧
    c.compileStatus .vertex = true ∧ c.compileStatus .fragment = true ∧
    mapGet (ready c s).1.shaders .vertex = some (c.shaderHandle .vertex) ∧
    mapGet (ready c s).1.shaders .fragment = some (c.shaderHandle .fragment) := by
  rcases hfv : c.fetch (shaderFile s .vertex) with e | bv
  · rw [(ready_vertex_fetch_fail c s e hfv).2, h0] at h
    simp at h
  · rcases hcv : c.compileStatus .vertex with _ | _
    · rw [(ready_vertex_compile_fail c s bv hfv hcv).2, h0] at h
      simp at h
    · rcases hff : c.fetch (shaderFile s .fragment) with e | bf
      · rw [(ready_fragment_fetch_fail c s bv e hfv hcv hff).2, h0] at h
        simp at h
      · rcases hcf : c.compileStatus .fragment with _ | _
        · rw [(ready_fragment_compile_fail c s bv bf hfv hcv hff hcf).2, h0] at h
          simp at h
        · have hsh : (ready c s).1.shaders =
              mapSet (mapSet s.shaders .vertex (c.shaderHandle .vertex)) .fragment
                (c.shaderHandle .fragment) := by
            rcases hl : c.linkStatus with _ | _
            · rw [ready_link_fail c s bv bf hfv hff hcv hcf hl]
            · rcases hvl : c.validateStatus with _ | _
              · rw [ready_validate_fail c s bv bf hfv hff hcv hcf hl hvl]
              · rw [ready_success c s bv bf hfv hff hcv hcf hl hvl]
          refine ⟨⟨bv, rfl⟩, ⟨bf, rfl⟩, rfl, rfl, ?_, ?_⟩
          · rw [hsh,
              mapGet_mapSet_ne (mapSet s.shaders .vertex (c.shaderHandle .vertex))
                Stage.vertex Stage.fragment (c.shaderHandle .fragment) (by decide),
              mapGet_mapSet_self]
          · rw [hsh, mapGet_mapSet_self]

/-- Claim C6, witness for the amended claim. -/
theorem C6_program_requires_shaders_witness :
    (∃ bv, ctxOK.fetch (shaderFile sBasic .vertex) = .ok bv) ∧
    (∃ bf, ctxOK.fetch (shaderFile sBasic .fragment) = .ok bf) ∧
    ctxOK.compileStatus .vertex = true ∧ ctxOK.compileStatus .fragment = true ∧
    mapGet (ready ctxOK sBasic).1.shaders .vertex = some (ctxOK.shaderHandle .vertex) ∧
    mapGet (ready ctxOK sBasic).1.shaders .fragment = some (ctxOK.shaderHandle .fragment) :=
  C6_program_requires_shaders ctxOK sBasic rfl rfl
